import Mathlib

/-!
Verification of the Providence core transport plane against its specification.

The Rust sources are shallowly embedded: machine integers become `Nat` with
explicit `% 2 ^ w` where wrap-around matters, stateful objects become explicit
state values threaded through pure transition functions, fallible operations
return `Except`/`Option`, and a `panic!`/`unwrap` failure is represented by a
dedicated constructor or by `Option.none`.
-/

namespace Providence

/-! ## Slot (src/src/slot.rs)

`SlotData` mirrors the mutex-protected `SlotData<T>` struct: the stored value,
the 64-bit `write_gen` counter and the `disconnected` flag.  A `SlotReader`
carries only its private `read_gen`; the shared slot state is passed explicitly
to each operation.  `SlotReader.block` in the source loops around a condition
variable; evaluated against one fixed slot state a single pass decides the
outcome, with `wouldBlock` standing for "waits on the condvar". -/

/-- Value of `!0u64`, the initial `read_gen` of the reader made by `slot()`. -/
def u64AllOnes : Nat := 2 ^ 64 - 1

structure SlotData (T : Type) where
  value : Option T
  write_gen : Nat
  disconnected : Bool
  deriving Repr, DecidableEq

structure SlotReader where
  read_gen : Nat
  deriving Repr, DecidableEq

/-- `Slot::default()`: empty value, `write_gen = 0`, connected. -/
def slotDataInit (T : Type) : SlotData T :=
  { value := none, write_gen := 0, disconnected := false }

/-- The `SlotReader` half produced by `slot()`: `read_gen = !0`. -/
def slotReaderInit : SlotReader := { read_gen := u64AllOnes }

/-- `SlotWriter::update`: store the value and increment `write_gen` (u64). -/
def SlotWriter.update {T : Type} (s : SlotData T) (v : T) : SlotData T :=
  { value := some v, write_gen := (s.write_gen + 1) % 2 ^ 64,
    disconnected := s.disconnected }

/-- `<SlotWriter as Drop>::drop`: set the `disconnected` flag. -/
def SlotWriter.dropWriter {T : Type} (s : SlotData T) : SlotData T :=
  { s with disconnected := true }

/-- `<SlotReader as Clone>::clone`: the clone keeps the slot and copies the
parent's `read_gen` field unchanged. -/
def SlotReader.clone (r : SlotReader) : SlotReader :=
  { read_gen := r.read_gen }

/-- `SlotReader::get`: return the current value (if any) and set
`read_gen := write_gen`. -/
def SlotReader.get {T : Type} (s : SlotData T) (r : SlotReader) :
    Option T × SlotReader :=
  match s.value with
  | some v => (some v, { read_gen := s.write_gen })
  | none => (none, r)

/-- `SlotReader::next`: return the value only when `write_gen ≠ read_gen`. -/
def SlotReader.next {T : Type} (s : SlotData T) (r : SlotReader) :
    Option T × SlotReader :=
  match s.value with
  | some v =>
    if s.write_gen ≠ r.read_gen then (some v, { read_gen := s.write_gen })
    else (none, r)
  | none => (none, r)

inductive BlockResult (T : Type) where
  | ok (v : T)
  | disconnected
  | wouldBlock
  deriving Repr, DecidableEq

/-- `SlotReader::block` evaluated against one fixed slot state.  The source
checks `disconnected` first, then the freshness of the value, and otherwise
waits on the condition variable (`wouldBlock` here). -/
def SlotReader.block {T : Type} (s : SlotData T) (r : SlotReader) :
    BlockResult T × SlotReader :=
  if s.disconnected then (.disconnected, r)
  else
    match s.value with
    | some v =>
      if s.write_gen ≠ r.read_gen then (.ok v, { read_gen := s.write_gen })
      else (.wouldBlock, r)
    | none => (.wouldBlock, r)

/-- `SlotReader::is_disconnected`. -/
def SlotReader.is_disconnected {T : Type} (s : SlotData T) : Bool :=
  s.disconnected

end Providence

namespace Providence

/-! ## Structural fingerprint (src/providence-io/src/fingerprint.rs)

`serde_fingerprint::<T>()` drives `T`'s derived `Deserialize` impl against a
degenerate deserializer that hashes structural tokens and unwraps the result
(so a deserialization error is a panic).  A `Shape` value describes the
serde-structure of a derived type: which `deserialize_*` entry point the type
calls and, for compounds, the shapes of the parts the derived visitor requests.
The hasher state is embedded as the list of chunks written to it (`Token`);
`DefaultHasher.finish` is a fixed function of that list and is not needed by
any claim.

Faithful consequences of the source encoded here:

* `deserialize_seq` and `deserialize_map` hand the visitor a `Seq` with
  `len: 0`, so the element shapes are never traversed; `deserialize_option`
  calls `visit_none`, so the inner shape is never traversed.
* `deserialize_struct`/`deserialize_tuple` hand the visitor a `Seq` whose
  length matches, so every field/element shape is traversed in order.
* `deserialize_enum` hashes the `enum` tag and the variant-name array, then
  calls `visitor.visit_enum`, whose `variant_seed` unconditionally returns
  `Err("enum fingerprinting is not yet supported")`.
* `deserialize_any` and `deserialize_ignored_any` return errors.

Maps and identifiers are omitted: no type of this repository reaches them. -/

inductive Token where
  | tag (s : String)
  | len (n : Nat)
  | names (a : List String)
  deriving Repr, DecidableEq

mutual

inductive Shape where
  | bool | i8 | i16 | i32 | i64 | u8 | u16 | u32 | u64 | f32 | f64
  | char | str | string | bytes
  | option (inner : Shape)
  | unit
  | unitStruct
  | newtypeStruct (inner : Shape)
  | seq (elem : Shape)
  | tuple (elems : ShapeList)
  | tupleStruct (elems : ShapeList)
  | structS (fields : FieldList)
  | enumS (variants : List String)
  | any
  | ignoredAny

inductive ShapeList where
  | nil
  | cons (head : Shape) (tail : ShapeList)

inductive FieldList where
  | nil
  | cons (name : String) (shape : Shape) (tail : FieldList)

end

/-- The field-name array `&[&str]` passed to `deserialize_struct`. -/
def FieldList.fieldNames : FieldList → List String
  | .nil => []
  | .cons name _ tail => name :: tail.fieldNames

/-- Number of elements the derived tuple visitor will request. -/
def ShapeList.length : ShapeList → Nat
  | .nil => 0
  | .cons _ tail => tail.length + 1

mutual

/-- The token stream `S::deserialize(Deser { hasher })` writes into the
hasher, or the first deserialization error. -/
def fpTokens : Shape → Except String (List Token)
  | .bool => .ok [.tag "bool"]
  | .i8 => .ok [.tag "i8"]
  | .i16 => .ok [.tag "i16"]
  | .i32 => .ok [.tag "i32"]
  | .i64 => .ok [.tag "i64"]
  | .u8 => .ok [.tag "u8"]
  | .u16 => .ok [.tag "u16"]
  | .u32 => .ok [.tag "u32"]
  | .u64 => .ok [.tag "u64"]
  | .f32 => .ok [.tag "f32"]
  | .f64 => .ok [.tag "f64"]
  | .char => .ok [.tag "char"]
  | .str => .ok [.tag "str"]
  | .string => .ok [.tag "str"]
  | .bytes => .ok [.tag "bytes"]
  | .option _ => .ok [.tag "option"]
  | .unit => .ok [.tag "unit"]
  | .unitStruct => .ok [.tag "unit_struct"]
  | .newtypeStruct inner =>
    match fpTokens inner with
    | .ok ts => .ok (.tag "newtype_struct" :: ts)
    | .error e => .error e
  | .seq _ => .ok [.tag "seq"]
  | .tuple elems =>
    match fpTokensShapes elems with
    | .ok ts => .ok (.tag "tuple" :: .len elems.length :: ts)
    | .error e => .error e
  | .tupleStruct elems =>
    match fpTokensShapes elems with
    | .ok ts => .ok (.tag "tuple_struct" :: .len elems.length :: ts)
    | .error e => .error e
  | .structS fields =>
    match fpTokensFields fields with
    | .ok ts => .ok (.tag "struct" :: .names fields.fieldNames :: ts)
    | .error e => .error e
  | .enumS _ => .error "enum fingerprinting is not yet supported"
  | .any => .error "deserialize_any is not supported"
  | .ignoredAny => .error "deserialize_ignored_any is not supported"

/-- Sequential traversal of tuple elements, short-circuiting on error. -/
def fpTokensShapes : ShapeList → Except String (List Token)
  | .nil => .ok []
  | .cons head tail =>
    match fpTokens head with
    | .ok ts =>
      match fpTokensShapes tail with
      | .ok ts2 => .ok (ts ++ ts2)
      | .error e => .error e
    | .error e => .error e

/-- Sequential traversal of struct fields, short-circuiting on error. -/
def fpTokensFields : FieldList → Except String (List Token)
  | .nil => .ok []
  | .cons _ shape tail =>
    match fpTokens shape with
    | .ok ts =>
      match fpTokensFields tail with
      | .ok ts2 => .ok (ts ++ ts2)
      | .error e => .error e
    | .error e => .error e

end

/-- `serde_fingerprint::<S>()`: `none` means the `.unwrap()` panics, `some ts`
means a 64-bit hash of the token stream `ts` is returned. -/
def serde_fingerprint (s : Shape) : Option (List Token) :=
  match fpTokens s with
  | .ok ts => some ts
  | .error _ => none

mutual

/-- The traversal reaches a failing entry point: `deserialize_any`,
`deserialize_ignored_any`, or an enum's `variant_seed`. -/
def Shape.fails : Shape → Bool
  | .option _ => false
  | .newtypeStruct inner => inner.fails
  | .seq _ => false
  | .tuple elems => elems.anyFails
  | .tupleStruct elems => elems.anyFails
  | .structS fields => fields.anyFails
  | .enumS _ => true
  | .any => true
  | .ignoredAny => true
  | _ => false

def ShapeList.anyFails : ShapeList → Bool
  | .nil => false
  | .cons head tail => head.fails || tail.anyFails

def FieldList.anyFails : FieldList → Bool
  | .nil => false
  | .cons _ shape tail => shape.fails || tail.anyFails

end

mutual

/-- Syntactic containment of `deserialize_any`/`deserialize_ignored_any`
anywhere in the shape — an overapproximation of the entry points that a run
could ever invoke. -/
def Shape.mentionsAny : Shape → Bool
  | .option inner => inner.mentionsAny
  | .newtypeStruct inner => inner.mentionsAny
  | .seq elem => elem.mentionsAny
  | .tuple elems => elems.mentionsAnyL
  | .tupleStruct elems => elems.mentionsAnyL
  | .structS fields => fields.mentionsAnyF
  | .any => true
  | .ignoredAny => true
  | _ => false

def ShapeList.mentionsAnyL : ShapeList → Bool
  | .nil => false
  | .cons head tail => head.mentionsAny || tail.mentionsAnyL

def FieldList.mentionsAnyF : FieldList → Bool
  | .nil => false
  | .cons _ shape tail => shape.mentionsAny || tail.mentionsAnyF

end

/-- Helper: success of a fingerprint run as a `Bool`. -/
def exOk (e : Except String (List Token)) : Bool :=
  match e with
  | .ok _ => true
  | .error _ => false

/-! Serde shapes of the wire data model (src/providence-io/src/data.rs), as
produced by the derived `Deserialize` impls. -/

def vertexShape : Shape :=
  .structS (.cons "position" (.tuple (.cons .f32 (.cons .f32 (.cons .f32 .nil))))
    (.cons "uv" (.tuple (.cons .f32 (.cons .f32 .nil))) .nil))

def imageShape : Shape :=
  .structS (.cons "width" .u32 (.cons "height" .u32 (.cons "data" (.seq .u8) .nil)))

def meshShape : Shape :=
  .structS (.cons "vertices" (.seq vertexShape) (.cons "indices" (.seq .u16) .nil))

def eyeShape : Shape :=
  .structS (.cons "texture" imageShape (.cons "mesh" meshShape
    (.cons "iris_center" (.tuple (.cons .f32 (.cons .f32 (.cons .f32 .nil))))
      (.cons "iris_radius" .f32 .nil))))

def persistentIdShape : Shape :=
  .enumS ["InProgress", "Unavailable", "Unknown", "Available"]

def faceDataShape : Shape :=
  .structS (.cons "ephemeral_id" .u32 (.cons "persistent_id" persistentIdShape
    (.cons "head_position" (.tuple (.cons .f32 (.cons .f32 .nil)))
      (.cons "head_rotation" (.tuple (.cons .f32 (.cons .f32 (.cons .f32 (.cons .f32 .nil)))))
        (.cons "left_eye" (.option eyeShape) (.cons "right_eye" (.option eyeShape) .nil))))))

def trackingMessageShape : Shape :=
  .structS (.cons "timestamp" .u32 (.cons "faces" (.seq faceDataShape) .nil))

/-! ## Wire data model and message codec (src/providence-io/src/data.rs)

Machine integers are `Nat`s constrained by validity predicates; an `f32` is
embedded as its 32-bit pattern (bincode writes exactly the bit pattern, and the
spec's round-trip property is stated bitwise).  A Rust `String` is embedded as
its UTF-8 byte list (bincode writes `u64` length plus the raw bytes; round-trip
starts from a valid Rust string, so the decoder's UTF-8 re-check always passes
and is not modelled).  bincode's legacy configuration is used by
`bincode::serialize`/`deserialize_from`: little-endian, fixed-width integers,
`u64` length prefixes, `u8` option tags, `u32` enum variant tags. -/

structure Image where
  width : Nat
  height : Nat
  data : List Nat
  deriving Repr, DecidableEq

structure Vertex where
  position : Nat × Nat × Nat
  uv : Nat × Nat
  deriving Repr, DecidableEq

structure Mesh where
  vertices : List Vertex
  indices : List Nat
  deriving Repr, DecidableEq

inductive PersistentId where
  | inProgress
  | unavailable
  | unknown
  | available (name : List Nat)
  deriving Repr, DecidableEq

structure Eye where
  texture : Image
  mesh : Mesh
  iris_center : Nat × Nat × Nat
  iris_radius : Nat
  deriving Repr, DecidableEq

structure FaceData where
  ephemeral_id : Nat
  persistent_id : PersistentId
  head_position : Nat × Nat
  head_rotation : Nat × Nat × Nat × Nat
  left_eye : Option Eye
  right_eye : Option Eye
  deriving Repr, DecidableEq

structure TrackingMessage where
  timestamp : Nat
  faces : List FaceData
  deriving Repr, DecidableEq

/-- `w` bytes of `n`, little-endian (the value is reduced mod `2 ^ (8 w)`). -/
def leBytes : Nat → Nat → List Nat
  | 0, _ => []
  | w + 1, n => n % 256 :: leBytes w (n / 256)

/-- bincode sequence encoding: `u64` length prefix, then the elements. -/
def encSeq {α : Type} (f : α → List Nat) (xs : List α) : List Nat :=
  leBytes 8 xs.length ++ (xs.map f).flatten

/-- bincode `Option` encoding: `u8` tag 0 (`None`) or 1 (`Some`) plus payload. -/
def encOption {α : Type} (f : α → List Nat) : Option α → List Nat
  | none => [0]
  | some x => 1 :: f x

def Image.enc (i : Image) : List Nat :=
  leBytes 4 i.width ++ leBytes 4 i.height ++ encSeq (fun b => leBytes 1 b) i.data

def Vertex.enc (v : Vertex) : List Nat :=
  leBytes 4 v.position.1 ++ leBytes 4 v.position.2.1 ++ leBytes 4 v.position.2.2 ++
    leBytes 4 v.uv.1 ++ leBytes 4 v.uv.2

def Mesh.enc (m : Mesh) : List Nat :=
  encSeq Vertex.enc m.vertices ++ encSeq (fun i => leBytes 2 i) m.indices

def PersistentId.enc : PersistentId → List Nat
  | .inProgress => leBytes 4 0
  | .unavailable => leBytes 4 1
  | .unknown => leBytes 4 2
  | .available name => leBytes 4 3 ++ encSeq (fun b => leBytes 1 b) name

def Eye.enc (e : Eye) : List Nat :=
  e.texture.enc ++ e.mesh.enc ++ leBytes 4 e.iris_center.1 ++
    leBytes 4 e.iris_center.2.1 ++ leBytes 4 e.iris_center.2.2 ++
    leBytes 4 e.iris_radius

def FaceData.enc (f : FaceData) : List Nat :=
  leBytes 4 f.ephemeral_id ++ f.persistent_id.enc ++
    leBytes 4 f.head_position.1 ++ leBytes 4 f.head_position.2 ++
    leBytes 4 f.head_rotation.1 ++ leBytes 4 f.head_rotation.2.1 ++
    leBytes 4 f.head_rotation.2.2.1 ++ leBytes 4 f.head_rotation.2.2.2 ++
    encOption Eye.enc f.left_eye ++ encOption Eye.enc f.right_eye

/-- bincode serialization of a `TrackingMessage` (the frame body). -/
def TrackingMessage.enc (m : TrackingMessage) : List Nat :=
  leBytes 4 m.timestamp ++ encSeq FaceData.enc m.faces

/-! `bincode::serialized_size`, computed without serializing. -/

def sizeSeq {α : Type} (g : α → Nat) (xs : List α) : Nat := 8 + (xs.map g).sum

def sizeOption {α : Type} (g : α → Nat) : Option α → Nat
  | none => 1
  | some x => 1 + g x

def Image.serialized_size (i : Image) : Nat :=
  4 + 4 + sizeSeq (fun _ => 1) i.data

def Vertex.serialized_size (_ : Vertex) : Nat := 20

def Mesh.serialized_size (m : Mesh) : Nat :=
  sizeSeq Vertex.serialized_size m.vertices + sizeSeq (fun _ => 2) m.indices

def PersistentId.serialized_size : PersistentId → Nat
  | .available name => 4 + sizeSeq (fun _ => 1) name
  | _ => 4

def Eye.serialized_size (e : Eye) : Nat :=
  e.texture.serialized_size + e.mesh.serialized_size + 12 + 4

def FaceData.serialized_size (f : FaceData) : Nat :=
  4 + f.persistent_id.serialized_size + 8 + 16 +
    sizeOption Eye.serialized_size f.left_eye +
    sizeOption Eye.serialized_size f.right_eye

def TrackingMessage.serialized_size (m : TrackingMessage) : Nat :=
  4 + sizeSeq FaceData.serialized_size m.faces

/-! Validity: the ranges of the Rust machine types embedded as `Nat`. -/

abbrev ValidBytes (l : List Nat) : Prop :=
  l.length < 2 ^ 64 ∧ ∀ b ∈ l, b < 256

abbrev Image.Valid (i : Image) : Prop :=
  i.width < 2 ^ 32 ∧ i.height < 2 ^ 32 ∧ ValidBytes i.data

abbrev Vertex.Valid (v : Vertex) : Prop :=
  v.position.1 < 2 ^ 32 ∧ v.position.2.1 < 2 ^ 32 ∧ v.position.2.2 < 2 ^ 32 ∧
    v.uv.1 < 2 ^ 32 ∧ v.uv.2 < 2 ^ 32

abbrev Mesh.Valid (m : Mesh) : Prop :=
  m.vertices.length < 2 ^ 64 ∧ (∀ v ∈ m.vertices, v.Valid) ∧
    m.indices.length < 2 ^ 64 ∧ ∀ i ∈ m.indices, i < 2 ^ 16

def PersistentId.Valid : PersistentId → Prop
  | .available name => ValidBytes name
  | _ => True

abbrev Eye.Valid (e : Eye) : Prop :=
  e.texture.Valid ∧ e.mesh.Valid ∧ e.iris_center.1 < 2 ^ 32 ∧
    e.iris_center.2.1 < 2 ^ 32 ∧ e.iris_center.2.2 < 2 ^ 32 ∧
    e.iris_radius < 2 ^ 32

def OptionValid {α : Type} (P : α → Prop) : Option α → Prop
  | none => True
  | some x => P x

abbrev FaceData.Valid (f : FaceData) : Prop :=
  f.ephemeral_id < 2 ^ 32 ∧ f.persistent_id.Valid ∧
    f.head_position.1 < 2 ^ 32 ∧ f.head_position.2 < 2 ^ 32 ∧
    f.head_rotation.1 < 2 ^ 32 ∧ f.head_rotation.2.1 < 2 ^ 32 ∧
    f.head_rotation.2.2.1 < 2 ^ 32 ∧ f.head_rotation.2.2.2 < 2 ^ 32 ∧
    OptionValid Eye.Valid f.left_eye ∧ OptionValid Eye.Valid f.right_eye

abbrev TrackingMessage.Valid (m : TrackingMessage) : Prop :=
  m.timestamp < 2 ^ 32 ∧ m.faces.length < 2 ^ 64 ∧ ∀ f ∈ m.faces, f.Valid

instance : (p : PersistentId) → Decidable p.Valid
  | .inProgress => .isTrue trivial
  | .unavailable => .isTrue trivial
  | .unknown => .isTrue trivial
  | .available name => inferInstanceAs (Decidable (ValidBytes name))

instance {α : Type} (P : α → Prop) [DecidablePred P] :
    (o : Option α) → Decidable (OptionValid P o)
  | none => .isTrue trivial
  | some x => inferInstanceAs (Decidable (P x))

instance : DecidablePred FaceData.Valid := fun f => by
  dsimp only [FaceData.Valid]
  infer_instance

instance : DecidablePred TrackingMessage.Valid := fun m => by
  dsimp only [TrackingMessage.Valid]
  infer_instance

/-! ### Decoding (bincode `deserialize_from` over a byte stream)

A decoder consumes a byte stream and returns the value plus the unconsumed
remainder, or the first error: `eof` models a failed `read_exact` inside
bincode (an `ErrorKind::Io(UnexpectedEof)`), `bad` models the other bincode
error kinds (invalid tags etc.). -/

inductive DecErr where
  | eof
  | bad (msg : String)
  deriving Repr, DecidableEq

def Dec (α : Type) : Type := List Nat → Except DecErr (α × List Nat)

def dpure {α : Type} (a : α) : Dec α := fun l => .ok (a, l)

def dthen {α β : Type} (p : Dec α) (f : α → Dec β) : Dec β := fun l =>
  match p l with
  | .ok (a, r) => f a r
  | .error e => .error e

/-- Read `w` bytes and assemble them little-endian. -/
def decBytes : Nat → Dec Nat
  | 0 => fun l => .ok (0, l)
  | w + 1 => fun l =>
    match l with
    | [] => .error .eof
    | b :: t =>
      match decBytes w t with
      | .ok (m, r) => .ok (b + 256 * m, r)
      | .error e => .error e

/-- Read exactly `n` elements. -/
def decCount {α : Type} (d : Dec α) : Nat → Dec (List α)
  | 0 => dpure []
  | n + 1 => dthen d fun x => dthen (decCount d n) fun xs => dpure (x :: xs)

/-- bincode sequence decoding: `u64` length, then that many elements. -/
def decSeq {α : Type} (d : Dec α) : Dec (List α) :=
  dthen (decBytes 8) fun n => decCount d n

/-- bincode `Option` decoding: `u8` tag 0 or 1; anything else is an
`InvalidTagEncoding` error. -/
def decOption {α : Type} (d : Dec α) : Dec (Option α) := fun l =>
  match l with
  | [] => .error .eof
  | 0 :: t => .ok (none, t)
  | 1 :: t => (dthen d fun x => dpure (some x)) t
  | _ :: _ => .error (.bad "invalid Option tag")

def Image.dec : Dec Image :=
  dthen (decBytes 4) fun w => dthen (decBytes 4) fun h =>
    dthen (decSeq (decBytes 1)) fun d => dpure ⟨w, h, d⟩

def Vertex.dec : Dec Vertex :=
  dthen (decBytes 4) fun px => dthen (decBytes 4) fun py =>
    dthen (decBytes 4) fun pz => dthen (decBytes 4) fun u =>
      dthen (decBytes 4) fun v => dpure ⟨(px, py, pz), (u, v)⟩

def Mesh.dec : Dec Mesh :=
  dthen (decSeq Vertex.dec) fun vs => dthen (decSeq (decBytes 2)) fun is =>
    dpure ⟨vs, is⟩

def PersistentId.dec : Dec PersistentId :=
  dthen (decBytes 4) fun tag => fun l =>
    match tag with
    | 0 => .ok (.inProgress, l)
    | 1 => .ok (.unavailable, l)
    | 2 => .ok (.unknown, l)
    | 3 => (dthen (decSeq (decBytes 1)) fun name => dpure (.available name)) l
    | _ => .error (.bad "invalid PersistentId variant tag")

def Eye.dec : Dec Eye :=
  dthen Image.dec fun tex => dthen Mesh.dec fun me =>
    dthen (decBytes 4) fun cx => dthen (decBytes 4) fun cy =>
      dthen (decBytes 4) fun cz => dthen (decBytes 4) fun rad =>
        dpure ⟨tex, me, (cx, cy, cz), rad⟩

def FaceData.dec : Dec FaceData :=
  dthen (decBytes 4) fun eid => dthen PersistentId.dec fun pid =>
    dthen (decBytes 4) fun hx => dthen (decBytes 4) fun hy =>
      dthen (decBytes 4) fun qx => dthen (decBytes 4) fun qy =>
        dthen (decBytes 4) fun qz => dthen (decBytes 4) fun qw =>
          dthen (decOption Eye.dec) fun le => dthen (decOption Eye.dec) fun re =>
            dpure ⟨eid, pid, (hx, hy), (qx, qy, qz, qw), le, re⟩

/-- bincode deserialization of a `TrackingMessage` body. -/
def TrackingMessage.dec : Dec TrackingMessage :=
  dthen (decBytes 4) fun ts => dthen (decSeq FaceData.dec) fun fs =>
    dpure ⟨ts, fs⟩

/-! ### Framing (`TrackingMessage::{read, write, async_read, async_write}`)

`fp` stands for the cached `Self::fingerprint()` value: a fixed `u64` computed
once per process; both sides of one process use the same value, so the codec
is uniform in it. -/

inductive IoErr where
  | unexpectedEof
  | invalidData (msg : String)
  deriving Repr, DecidableEq

/-- `convert_error`: bincode I/O errors pass through (here only end-of-input),
every other bincode error becomes `InvalidData`. -/
def convert_error : DecErr → IoErr
  | .eof => .unexpectedEof
  | .bad m => .invalidData m

/-- `TrackingMessage::write`: fingerprint, `u32` size, body.  `none` models the
panic of `u32::try_from(size).unwrap()` when the bincode size exceeds
`u32::MAX`. -/
def TrackingMessage.write (fp : Nat) (m : TrackingMessage) : Option (List Nat) :=
  if m.serialized_size < 2 ^ 32 then
    some (leBytes 8 fp ++ leBytes 4 m.serialized_size ++ m.enc)
  else none

/-- `TrackingMessage::async_write`: identical bytes and identical panic
condition (it serializes to a buffer first, then writes the buffer). -/
def TrackingMessage.async_write (fp : Nat) (m : TrackingMessage) : Option (List Nat) :=
  if m.serialized_size < 2 ^ 32 then
    some (leBytes 8 fp ++ leBytes 4 m.serialized_size ++ m.enc)
  else none

/-- `TrackingMessage::read`: 8-byte fingerprint (mismatch fails with
`InvalidData("message fingerprint mismatch")`), 4-byte size, then
`bincode::deserialize_from(&mut read.take(size))` — the decoder consumes only
the bytes it needs, bounded by `size`; the returned remainder is the
unconsumed part of the underlying stream. -/
def TrackingMessage.read (fp : Nat) (input : List Nat) :
    Except IoErr (TrackingMessage × List Nat) :=
  match decBytes 8 input with
  | .error e => .error (convert_error e)
  | .ok (fpr, r1) =>
    if fpr ≠ fp then .error (.invalidData "message fingerprint mismatch")
    else
      match decBytes 4 r1 with
      | .error e => .error (convert_error e)
      | .ok (size, r2) =>
        match TrackingMessage.dec (r2.take size) with
        | .ok (m, leftover) =>
          .ok (m, r2.drop ((r2.take size).length - leftover.length))
        | .error e => .error (convert_error e)

/-- `TrackingMessage::async_read`: same header handling, but it `read_exact`s
a buffer of exactly `size` bytes (failing with `UnexpectedEof` if the stream is
shorter) and then decodes from that buffer, ignoring any unconsumed tail of the
buffer. -/
def TrackingMessage.async_read (fp : Nat) (input : List Nat) :
    Except IoErr (TrackingMessage × List Nat) :=
  match decBytes 8 input with
  | .error e => .error (convert_error e)
  | .ok (fpr, r1) =>
    if fpr ≠ fp then .error (.invalidData "message fingerprint mismatch")
    else
      match decBytes 4 r1 with
      | .error e => .error (convert_error e)
      | .ok (size, r2) =>
        if r2.length < size then .error .unexpectedEof
        else
          match TrackingMessage.dec (r2.take size) with
          | .ok (m, _) => .ok (m, r2.drop size)
          | .error e => .error (convert_error e)

/-! ## Task (src/src/task.rs)

A `Task<T>`'s future runs under `catch_unwind`, and a `defer` guard sets the
`finished` flag on any exit.  The task's status at drop time is embedded as a
`TaskState`; panic payloads are embedded as strings.  `Task::drop` joins the
handle: when `is_finished()` it blocks on the handle without cancelling,
otherwise it cancels and joins (`block_on(handle.cancel())`, which yields no
value for a task that had not completed); a captured panic payload is re-raised
with `resume_unwind` unless `thread::panicking()` already holds. -/

inductive TaskState (T : Type) where
  | running
  | completed (v : T)
  | panicked (payload : String)
  deriving Repr, DecidableEq

/-- `Task::is_finished`: the flag is set on any exit, including panics. -/
def Task.is_finished {T : Type} : TaskState T → Bool
  | .running => false
  | .completed _ => true
  | .panicked _ => true

/-- Observable effect of `<Task as Drop>::drop`: whether the computation was
cancelled, and which panic payload (if any) is re-raised on the dropping
thread. -/
structure DropEffect where
  canceled : Bool
  raised : Option String
  deriving Repr, DecidableEq

/-- `<Task as Drop>::drop`, given the task's state at drop time and whether the
dropping thread is already unwinding. -/
def Task.dropTask {T : Type} (st : TaskState T) (threadPanicking : Bool) :
    DropEffect :=
  if Task.is_finished st then
    { canceled := false,
      raised :=
        match st with
        | .panicked payload => if threadPanicking then none else some payload
        | _ => none }
  else
    { canceled := true, raised := none }

/-! ## Subscriber error surfacing (src/providence-io/src/net.rs)

The `Subscriber` holds `task : Option<Task<io::Result<()>>>` and a reader for
the reactive value its internal task writes received messages into.

Modelled from the spec: the reactive `Value`/`Reader` pair
(`pawawwewism::reactive`) is an external dependency whose source is not in the
repository; its semantics are taken from the spec's slot description —
`get()`/`block()` fail with `Disconnected` once the writer (owned by the
internal task) is gone, and `next()` hands out a value only when it "differs
from the last retrieved" (`has_changed`).  The reactive reader state is a
snapshot: `disconnected`, a `changed` flag, and the current value.  Payloads
are `Nat`s standing for `Arc<TrackingMessage>`.

When the internal task has exited, its join result is an `io::Result<()>`
(`Except IoErr Unit`); the task body loops forever, so it can only exit with an
error. -/

structure RReader where
  disconnected : Bool
  changed : Bool
  value : Option Nat
  deriving Repr, DecidableEq

/-- Modelled from the spec: reactive `Reader::get` — current value, or
`Err(Disconnected)` once the writer is gone. -/
def RReader.get (r : RReader) : Except Unit (Option Nat) :=
  if r.disconnected then .error () else .ok r.value

/-- Modelled from the spec: reactive `Reader::has_changed`. -/
def RReader.has_changed (r : RReader) : Bool := r.changed

/-- Modelled from the spec: reactive `Reader::is_disconnected`. -/
def RReader.is_disconnected (r : RReader) : Bool := r.disconnected

inductive RBlock where
  | val (v : Option Nat)
  | disc
  | wouldBlock
  deriving Repr, DecidableEq

/-- Modelled from the spec: reactive `Reader::block` — `Disconnected` once the
writer is gone, the stored value once it changed, otherwise it waits. -/
def RReader.blockR (r : RReader) : RBlock :=
  if r.disconnected then .disc
  else if r.changed then .val r.value
  else .wouldBlock

instance {ε α : Type} [DecidableEq ε] [DecidableEq α] : DecidableEq (Except ε α) := fun x y =>
  match x, y with
  | .ok a, .ok b =>
    if h : a = b then .isTrue (by rw [h]) else .isFalse (fun hc => by cases hc; exact h rfl)
  | .error a, .error b =>
    if h : a = b then .isTrue (by rw [h]) else .isFalse (fun hc => by cases hc; exact h rfl)
  | .ok _, .error _ => .isFalse (fun hc => by cases hc)
  | .error _, .ok _ => .isFalse (fun hc => by cases hc)

structure Subscriber where
  task : Option (Except IoErr Unit)
  reader : RReader
  deriving Repr, DecidableEq

/-- Result of one `Subscriber` method call.  `panicked` covers every `unwrap`
failure on the Rust side (`Option::unwrap`, `Result::unwrap_err`,
`self.task.take().unwrap()`). -/
inductive Outcome (α : Type) where
  | ok (a : α)
  | err (e : IoErr)
  | panicked
  | wouldBlock
  deriving Repr, DecidableEq

/-- `self.task.take().unwrap().block().unwrap_err()`: joins the task handle
(taking it out of the `Option`), panicking if it was already taken or if the
task somehow returned `Ok`. -/
def Subscriber.takeJoinErr (s : Subscriber) : Outcome Empty × Subscriber :=
  match s.task with
  | none => (.panicked, s)
  | some (.ok _) => (.panicked, { s with task := none })
  | some (.error e) => (.err e, { s with task := none })

/-- `Subscriber::ping` followed by the caller's `.unwrap_err()`: if the reader
is disconnected, join the task and yield its error; otherwise `ping` returns
`Ok(())` and the caller's `unwrap_err` panics. -/
def Subscriber.pingErr (s : Subscriber) : Outcome Empty × Subscriber :=
  if s.reader.is_disconnected then Subscriber.takeJoinErr s
  else (.panicked, s)

/-- `Subscriber::get`. -/
def Subscriber.get (s : Subscriber) : Outcome (Option Nat) × Subscriber :=
  match RReader.get s.reader with
  | .ok opt => (.ok opt, s)
  | .error _ =>
    match Subscriber.pingErr s with
    | (.err e, s2) => (.err e, s2)
    | (_, s2) => (.panicked, s2)

/-- `Subscriber::next`: `has_changed` first; on a change, `get` plus
`Option::unwrap` of the stored value. -/
def Subscriber.next (s : Subscriber) : Outcome (Option Nat) × Subscriber :=
  if s.reader.has_changed then
    match RReader.get s.reader with
    | .ok (some v) => (.ok (some v), s)
    | .ok none => (.panicked, s)
    | .error _ =>
      match Subscriber.pingErr s with
      | (.err e, s2) => (.err e, s2)
      | (_, s2) => (.panicked, s2)
  else (.ok none, s)

/-- `Subscriber::block`: `reader.block().map(Option::unwrap)`, with the
disconnect branch joining the task via `map_err`. -/
def Subscriber.block (s : Subscriber) : Outcome Nat × Subscriber :=
  match RReader.blockR s.reader with
  | .val (some v) => (.ok v, s)
  | .val none => (.panicked, s)
  | .disc =>
    match Subscriber.takeJoinErr s with
    | (.err e, s2) => (.err e, s2)
    | (_, s2) => (.panicked, s2)
  | .wouldBlock => (.wouldBlock, s)

/-! ## Publisher construction (src/providence-io/src/net.rs, `Publisher::spawn`)

`Publisher::spawn` filters `if_addrs::get_if_addrs()` down to private IPv4
addresses; with none it fails with `AddrNotAvailable`, otherwise it proceeds to
bind the TCP listener using the first private address as the primary
advertised name and the rest as additional names.  An IPv4 address is embedded
as four octets; `Ipv4Addr::is_private` covers `10/8`, `172.16/12` and
`192.168/16`. -/

inductive IfIp where
  | v4 (a b c d : Nat)
  | v6
  deriving Repr, DecidableEq

/-- `Ipv4Addr::is_private`. -/
def isPrivateV4 (a b : Nat) : Bool :=
  decide (a = 10) || (decide (a = 172) && decide (16 ≤ b) && decide (b ≤ 31)) ||
    (decide (a = 192) && decide (b = 168))

/-- An interface address passing the `filter_map` in `Publisher::spawn`. -/
def IfIp.privateV4 : IfIp → Option (Nat × Nat × Nat × Nat)
  | .v4 a b c d => if isPrivateV4 a b then some (a, b, c, d) else none
  | .v6 => none

/-- The `local_addrs` vector of `Publisher::spawn`. -/
def localAddrs (ifaces : List IfIp) : List (Nat × Nat × Nat × Nat) :=
  ifaces.filterMap IfIp.privateV4

inductive SpawnStep where
  | addrNotAvailable
  | bindListener (first : Nat × Nat × Nat × Nat) (more : List (Nat × Nat × Nat × Nat))
  deriving Repr, DecidableEq

/-- The address-selection step of `Publisher::spawn`, given the successfully
enumerated interface list (an enumeration failure propagates its own error
before this point). -/
def Publisher.spawnStep (ifaces : List IfIp) : SpawnStep :=
  match localAddrs ifaces with
  | [] => .addrNotAvailable
  | first :: more => .bindListener first more

/-! ### Claim C1 -/

mutual

theorem fpTokens_ok_eq : ∀ s : Shape, exOk (fpTokens s) = !Shape.fails s
  | .bool | .i8 | .i16 | .i32 | .i64 | .u8 | .u16 | .u32 | .u64 | .f32 | .f64
  | .char | .str | .string | .bytes | .option _ | .unit | .unitStruct
  | .seq _ | .enumS _ | .any | .ignoredAny => rfl
  | .newtypeStruct inner => by
    have ih := fpTokens_ok_eq inner
    simp only [fpTokens, Shape.fails]
    cases h : fpTokens inner <;> simp [h, exOk] at ih ⊢ <;> simpa using ih
  | .tuple elems => by
    have ih := fpTokensShapes_ok_eq elems
    simp only [fpTokens, Shape.fails]
    cases h : fpTokensShapes elems <;> simp [h, exOk] at ih ⊢ <;> simpa using ih
  | .tupleStruct elems => by
    have ih := fpTokensShapes_ok_eq elems
    simp only [fpTokens, Shape.fails]
    cases h : fpTokensShapes elems <;> simp [h, exOk] at ih ⊢ <;> simpa using ih
  | .structS fields => by
    have ih := fpTokensFields_ok_eq fields
    simp only [fpTokens, Shape.fails]
    cases h : fpTokensFields fields <;> simp [h, exOk] at ih ⊢ <;> simpa using ih

theorem fpTokensShapes_ok_eq :
    ∀ l : ShapeList, exOk (fpTokensShapes l) = !ShapeList.anyFails l
  | .nil => rfl
  | .cons head tail => by
    have ih1 := fpTokens_ok_eq head
    have ih2 := fpTokensShapes_ok_eq tail
    simp only [fpTokensShapes, ShapeList.anyFails]
    cases h1 : fpTokens head <;> cases h2 : fpTokensShapes tail <;>
      simp [h1, exOk] at ih1 <;> simp [h2, exOk] at ih2 <;>
      simp [exOk, ih1, ih2]

theorem fpTokensFields_ok_eq :
    ∀ l : FieldList, exOk (fpTokensFields l) = !FieldList.anyFails l
  | .nil => rfl
  | .cons _ shape tail => by
    have ih1 := fpTokens_ok_eq shape
    have ih2 := fpTokensFields_ok_eq tail
    simp only [fpTokensFields, FieldList.anyFails]
    cases h1 : fpTokens shape <;> cases h2 : fpTokensFields tail <;>
      simp [h1, exOk] at ih1 <;> simp [h2, exOk] at ih2 <;>
      simp [exOk, ih1, ih2]

end

/-- C1 counterexample: `PersistentId` is a deserializable type whose shape
contains no `deserialize_any`/`deserialize_ignored_any` at all, yet
`serde_fingerprint` fails on it (`EnumAccess::variant_seed` always errors and
the result is unwrapped), refuting the claimed "fails iff" characterization;
moreover the `TrackingMessage` hash contains no variant-name array token: the
`PersistentId` enum sits behind a `Vec`, whose elements are never traversed. -/
theorem c1_enum_panics_counterexample :
    serde_fingerprint persistentIdShape = none ∧
    Shape.mentionsAny persistentIdShape = false ∧
    serde_fingerprint trackingMessageShape
      = some [.tag "struct", .names ["timestamp", "faces"], .tag "u32", .tag "seq"] := by
  refine ⟨rfl, rfl, rfl⟩

/-- C1 (amended): `serde_fingerprint::<T>()` panics exactly when deserializing
`T` reaches `deserialize_any`, `deserialize_ignored_any`, or an enum variant
access (`variant_seed` is unimplemented and errors); every other type gets a
64-bit hash.  `TrackingMessage` does return a hash, but only because sequence
elements are not traversed (`seq` is hashed with length 0), so its
`PersistentId` enum — and hence any variant-name array — is never reached,
while fingerprinting a type that directly contains the enum (`FaceData`,
`PersistentId`) panics. -/
theorem c1_fingerprint_failure_characterization :
    (∀ s : Shape, (serde_fingerprint s).isSome = !Shape.fails s) ∧
    (serde_fingerprint trackingMessageShape).isSome = true ∧
    serde_fingerprint faceDataShape = none ∧
    serde_fingerprint persistentIdShape = none := by
  refine ⟨?_, rfl, rfl, rfl⟩
  intro s
  have h := fpTokens_ok_eq s
  unfold serde_fingerprint
  cases hs : fpTokens s <;> simp [hs, exOk] at h ⊢ <;> simpa using h

/-! ### Codec round-trip machinery -/

theorem leBytes_length (w : Nat) : ∀ n, (leBytes w n).length = w := by
  induction w with
  | zero => intro n; rfl
  | succ w ih => intro n; simp [leBytes, ih]

theorem flatten_map_length {α : Type} (f : α → List Nat) (g : α → Nat)
    (h : ∀ x, (f x).length = g x) :
    ∀ xs : List α, ((xs.map f).flatten).length = (xs.map g).sum := by
  intro xs
  induction xs with
  | nil => rfl
  | cons x t ih => simp [h x, ih]

theorem encSeq_length {α : Type} (f : α → List Nat) (g : α → Nat)
    (h : ∀ x, (f x).length = g x) (xs : List α) :
    (encSeq f xs).length = sizeSeq g xs := by
  simp [encSeq, sizeSeq, leBytes_length, flatten_map_length f g h]

theorem encOption_length {α : Type} (f : α → List Nat) (g : α → Nat)
    (h : ∀ x, (f x).length = g x) :
    ∀ o : Option α, (encOption f o).length = sizeOption g o := by
  intro o
  cases o with
  | none => rfl
  | some x => simp [encOption, sizeOption, h x, Nat.add_comm]

theorem image_enc_length (i : Image) : i.enc.length = i.serialized_size := by
  simp [Image.enc, Image.serialized_size, leBytes_length,
    encSeq_length (fun b => leBytes 1 b) (fun _ => 1) (fun x => leBytes_length 1 x)]
  omega

theorem vertex_enc_length (v : Vertex) : v.enc.length = v.serialized_size := by
  simp [Vertex.enc, Vertex.serialized_size, leBytes_length]

theorem mesh_enc_length (m : Mesh) : m.enc.length = m.serialized_size := by
  simp [Mesh.enc, Mesh.serialized_size,
    encSeq_length Vertex.enc Vertex.serialized_size vertex_enc_length,
    encSeq_length (fun i => leBytes 2 i) (fun _ => 2) (fun x => leBytes_length 2 x)]

theorem persistentId_enc_length (p : PersistentId) :
    p.enc.length = p.serialized_size := by
  cases p <;>
    simp [PersistentId.enc, PersistentId.serialized_size, leBytes_length,
      encSeq_length (fun b => leBytes 1 b) (fun _ => 1) (fun x => leBytes_length 1 x)]

theorem eye_enc_length (e : Eye) : e.enc.length = e.serialized_size := by
  simp [Eye.enc, Eye.serialized_size, leBytes_length, image_enc_length,
    mesh_enc_length]
  omega

theorem faceData_enc_length (f : FaceData) : f.enc.length = f.serialized_size := by
  simp [FaceData.enc, FaceData.serialized_size, leBytes_length,
    persistentId_enc_length,
    encOption_length Eye.enc Eye.serialized_size eye_enc_length]
  omega

theorem trackingMessage_enc_length (m : TrackingMessage) :
    m.enc.length = m.serialized_size := by
  simp [TrackingMessage.enc, TrackingMessage.serialized_size, leBytes_length,
    encSeq_length FaceData.enc FaceData.serialized_size faceData_enc_length]

theorem take_append_self {α : Type} (l r : List α) : (l ++ r).take l.length = l := by
  induction l with
  | nil => rfl
  | cons x t ih => simp [ih]

theorem drop_append_self {α : Type} (l r : List α) : (l ++ r).drop l.length = r := by
  induction l with
  | nil => rfl
  | cons x t ih => simp [ih]

theorem decBytes_leBytes (w : Nat) :
    ∀ n, n < 256 ^ w → ∀ rest, decBytes w (leBytes w n ++ rest) = .ok (n, rest) := by
  induction w with
  | zero =>
    intro n h rest
    simp only [Nat.pow_zero, Nat.lt_one_iff] at h
    subst h
    rfl
  | succ w ih =>
    intro n h rest
    have h2 : n / 256 < 256 ^ w := by
      apply Nat.div_lt_of_lt_mul
      rw [Nat.mul_comm, ← Nat.pow_succ]
      exact h
    simp [leBytes, decBytes, ih (n / 256) h2 rest, Nat.mod_add_div]

theorem decBytes8_rt (n : Nat) (h : n < 2 ^ 64) :
    ∀ rest, decBytes 8 (leBytes 8 n ++ rest) = .ok (n, rest) :=
  decBytes_leBytes 8 n (by norm_num at h ⊢; exact h)

theorem decBytes4_rt (n : Nat) (h : n < 2 ^ 32) :
    ∀ rest, decBytes 4 (leBytes 4 n ++ rest) = .ok (n, rest) :=
  decBytes_leBytes 4 n (by norm_num at h ⊢; exact h)

theorem decBytes2_rt (n : Nat) (h : n < 2 ^ 16) :
    ∀ rest, decBytes 2 (leBytes 2 n ++ rest) = .ok (n, rest) :=
  decBytes_leBytes 2 n (by norm_num at h ⊢; exact h)

theorem decBytes1_rt (n : Nat) (h : n < 256) :
    ∀ rest, decBytes 1 (leBytes 1 n ++ rest) = .ok (n, rest) :=
  decBytes_leBytes 1 n (by norm_num at h ⊢; exact h)

theorem decCount_rt {α : Type} (d : Dec α) (f : α → List Nat) :
    ∀ xs : List α, (∀ x ∈ xs, ∀ rest, d (f x ++ rest) = .ok (x, rest)) →
      ∀ rest, decCount d xs.length ((xs.map f).flatten ++ rest) = .ok (xs, rest) := by
  intro xs
  induction xs with
  | nil => intro _ rest; simp [decCount, dpure]
  | cons x t ih =>
    intro h rest
    have hx := h x (by simp)
    have ht := ih (fun y hy rest2 => h y (by simp [hy]) rest2) rest
    simp [decCount, dthen, dpure, List.append_assoc, hx, ht]

theorem decSeq_rt {α : Type} (d : Dec α) (f : α → List Nat) (xs : List α)
    (hlen : xs.length < 2 ^ 64)
    (h : ∀ x ∈ xs, ∀ rest, d (f x ++ rest) = .ok (x, rest)) :
    ∀ rest, decSeq d (encSeq f xs ++ rest) = .ok (xs, rest) := by
  intro rest
  simp [decSeq, encSeq, dthen, List.append_assoc, decBytes8_rt xs.length hlen,
    decCount_rt d f xs h rest]

theorem decOption_rt {α : Type} (d : Dec α) (f : α → List Nat) (o : Option α)
    (h : ∀ x, o = some x → ∀ rest, d (f x ++ rest) = .ok (x, rest)) :
    ∀ rest, decOption d (encOption f o ++ rest) = .ok (o, rest) := by
  cases o with
  | none => intro rest; simp [encOption, decOption]
  | some x => intro rest; simp [encOption, decOption, dthen, dpure, h x rfl rest]

theorem vertex_dec_enc (v : Vertex) (hv : v.Valid) :
    ∀ rest, Vertex.dec (Vertex.enc v ++ rest) = .ok (v, rest) := by
  obtain ⟨⟨px, py, pz⟩, u, w⟩ := v
  obtain ⟨h1, h2, h3, h4, h5⟩ := hv
  intro rest
  simp [Vertex.enc, Vertex.dec, dthen, dpure, List.append_assoc,
    decBytes4_rt px h1, decBytes4_rt py h2, decBytes4_rt pz h3,
    decBytes4_rt u h4, decBytes4_rt w h5]

theorem image_dec_enc (i : Image) (hi : i.Valid) :
    ∀ rest, Image.dec (Image.enc i ++ rest) = .ok (i, rest) := by
  obtain ⟨w, h, data⟩ := i
  obtain ⟨h1, h2, h3, h4⟩ := hi
  intro rest
  simp [Image.enc, Image.dec, dthen, dpure, List.append_assoc,
    decBytes4_rt w h1, decBytes4_rt h h2,
    decSeq_rt (decBytes 1) (fun b => leBytes 1 b) data h3
      (fun b hb rest2 => decBytes1_rt b (h4 b hb) rest2)]

theorem mesh_dec_enc (m : Mesh) (hm : m.Valid) :
    ∀ rest, Mesh.dec (Mesh.enc m ++ rest) = .ok (m, rest) := by
  obtain ⟨vs, is⟩ := m
  obtain ⟨h1, h2, h3, h4⟩ := hm
  intro rest
  simp [Mesh.enc, Mesh.dec, dthen, dpure, List.append_assoc,
    decSeq_rt Vertex.dec Vertex.enc vs h1
      (fun v hv rest2 => vertex_dec_enc v (h2 v hv) rest2),
    decSeq_rt (decBytes 2) (fun i => leBytes 2 i) is h3
      (fun i hi rest2 => decBytes2_rt i (h4 i hi) rest2)]

theorem persistentId_dec_enc (p : PersistentId) (hp : p.Valid) :
    ∀ rest, PersistentId.dec (PersistentId.enc p ++ rest) = .ok (p, rest) := by
  cases p with
  | available name =>
    obtain ⟨h1, h2⟩ := hp
    intro rest
    simp [PersistentId.enc, PersistentId.dec, dthen, dpure, List.append_assoc,
      decBytes4_rt 3 (by norm_num),
      decSeq_rt (decBytes 1) (fun b => leBytes 1 b) name h1
        (fun b hb rest2 => decBytes1_rt b (h2 b hb) rest2)]
  | inProgress =>
    intro rest
    simp [PersistentId.enc, PersistentId.dec, dthen, dpure,
      decBytes4_rt 0 (by norm_num)]
  | unavailable =>
    intro rest
    simp [PersistentId.enc, PersistentId.dec, dthen, dpure,
      decBytes4_rt 1 (by norm_num)]
  | unknown =>
    intro rest
    simp [PersistentId.enc, PersistentId.dec, dthen, dpure,
      decBytes4_rt 2 (by norm_num)]

theorem eye_dec_enc (e : Eye) (he : e.Valid) :
    ∀ rest, Eye.dec (Eye.enc e ++ rest) = .ok (e, rest) := by
  obtain ⟨tex, me, ⟨cx, cy, cz⟩, rad⟩ := e
  obtain ⟨h1, h2, h3, h4, h5, h6⟩ := he
  intro rest
  simp [Eye.enc, Eye.dec, dthen, dpure, List.append_assoc,
    image_dec_enc tex h1, mesh_dec_enc me h2,
    decBytes4_rt cx h3, decBytes4_rt cy h4, decBytes4_rt cz h5,
    decBytes4_rt rad h6]

theorem faceData_dec_enc (f : FaceData) (hf : f.Valid) :
    ∀ rest, FaceData.dec (FaceData.enc f ++ rest) = .ok (f, rest) := by
  obtain ⟨eid, pid, ⟨hx, hy⟩, ⟨qx, qy, qz, qw⟩, le, re⟩ := f
  obtain ⟨h1, h2, h3, h4, h5, h6, h7, h8, h9, h10⟩ := hf
  intro rest
  have hle : ∀ x, le = some x → ∀ rest2, Eye.dec (Eye.enc x ++ rest2) = .ok (x, rest2) := by
    intro x hx2 rest2
    subst hx2
    exact eye_dec_enc x h9 rest2
  have hre : ∀ x, re = some x → ∀ rest2, Eye.dec (Eye.enc x ++ rest2) = .ok (x, rest2) := by
    intro x hx2 rest2
    subst hx2
    exact eye_dec_enc x h10 rest2
  simp [FaceData.enc, FaceData.dec, dthen, dpure, List.append_assoc,
    decBytes4_rt eid h1, persistentId_dec_enc pid h2,
    decBytes4_rt hx h3, decBytes4_rt hy h4,
    decBytes4_rt qx h5, decBytes4_rt qy h6, decBytes4_rt qz h7,
    decBytes4_rt qw h8,
    decOption_rt Eye.dec Eye.enc le hle, decOption_rt Eye.dec Eye.enc re hre]

theorem trackingMessage_dec_enc (m : TrackingMessage) (hm : m.Valid) :
    ∀ rest, TrackingMessage.dec (TrackingMessage.enc m ++ rest) = .ok (m, rest) := by
  obtain ⟨ts, fs⟩ := m
  obtain ⟨h1, h2, h3⟩ := hm
  intro rest
  simp [TrackingMessage.enc, TrackingMessage.dec, dthen, dpure, List.append_assoc,
    decBytes4_rt ts h1,
    decSeq_rt FaceData.dec FaceData.enc fs h2
      (fun f hf rest2 => faceData_dec_enc f (h3 f hf) rest2)]

/-- The framing helper: a frame produced by `write`, followed by arbitrary
trailing stream bytes, is parsed back identically by both `read` and
`async_read`, consuming exactly the frame. -/
theorem read_frame (fp : Nat) (m : TrackingMessage) (rest : List Nat)
    (hfp : fp < 2 ^ 64) (hm : m.Valid) (hs : m.serialized_size < 2 ^ 32) :
    TrackingMessage.read fp
        ((leBytes 8 fp ++ leBytes 4 m.serialized_size ++ m.enc) ++ rest)
      = .ok (m, rest) ∧
    TrackingMessage.async_read fp
        ((leBytes 8 fp ++ leBytes 4 m.serialized_size ++ m.enc) ++ rest)
      = .ok (m, rest) := by
  have hlen := trackingMessage_enc_length m
  have hdec := trackingMessage_dec_enc m hm
  have hdec0 : TrackingMessage.dec m.enc = .ok (m, []) := by
    have := hdec []
    simpa using this
  have htake : (m.enc ++ rest).take m.serialized_size = m.enc := by
    rw [← hlen]
    exact take_append_self m.enc rest
  have hdrop : (m.enc ++ rest).drop m.serialized_size = rest := by
    rw [← hlen]
    exact drop_append_self m.enc rest
  have hge : ¬ (m.enc ++ rest).length < m.serialized_size := by
    simp [List.length_append, ← hlen]
  constructor
  · simp only [TrackingMessage.read, List.append_assoc,
      decBytes8_rt fp hfp, decBytes4_rt m.serialized_size hs]
    simp [htake, hdec0, hdrop, ← hlen]
  · simp only [TrackingMessage.async_read, List.append_assoc,
      decBytes8_rt fp hfp, decBytes4_rt m.serialized_size hs]
    simp [htake, hdec0, hdrop, hge]
    omega

/-! ### Sample messages used by the witnesses -/

def sampleEye : Eye :=
  { texture := { width := 1, height := 1, data := [0, 1, 2, 3] },
    mesh := { vertices := [{ position := (1, 2, 3), uv := (4, 5) }],
              indices := [0, 1, 2] },
    iris_center := (6, 7, 8),
    iris_radius := 9 }

def sampleMsg : TrackingMessage :=
  { timestamp := 1,
    faces := [{ ephemeral_id := 123,
                persistent_id := .available [65, 66],
                head_position := (10, 11),
                head_rotation := (12, 13, 14, 15),
                left_eye := some sampleEye,
                right_eye := none }] }

/-! ### Claims C2, C5, C10 -/

/-- C2: writing a valid `TrackingMessage` with `TrackingMessage::write` and
reading the produced bytes back with `TrackingMessage::read` succeeds and
returns a bitwise-equal message.  Validity comprises the machine-integer
ranges of the embedded fields (`f32`s are compared and restored bitwise) and
frame representability (`bincode` size below `u32::MAX`, without which `write`
panics — see C10). -/
theorem c2_write_read_roundtrip (fp : Nat) (m : TrackingMessage)
    (hfp : fp < 2 ^ 64) (hm : m.Valid) (hs : m.serialized_size < 2 ^ 32) :
    ∃ bs, TrackingMessage.write fp m = some bs ∧
      TrackingMessage.read fp bs = .ok (m, []) := by
  refine ⟨leBytes 8 fp ++ leBytes 4 m.serialized_size ++ m.enc, ?_, ?_⟩
  · simp only [TrackingMessage.write]
    rw [if_pos hs]
  · have := (read_frame fp m [] hfp hm hs).1
    simpa using this

/-- C2 witness: the round trip evaluated on a concrete message exercising an
eye, a mesh, an image and an `Available` persistent id. -/
theorem c2_write_read_roundtrip_witness :
    ∃ bs, TrackingMessage.write 9 sampleMsg = some bs ∧
      TrackingMessage.read 9 bs = .ok (sampleMsg, []) :=
  c2_write_read_roundtrip 9 sampleMsg (by norm_num) (by decide) (by decide)

/-- C5 counterexample: `read` and `async_read` are not behaviorally identical
on every input byte stream.  On a frame whose size field (13) exceeds the
encoded length of the body value (12 bytes: an empty message), the blocking
`read` — which decodes from `reader.take(size)` and consumes only what the
decoder needs — succeeds, while `async_read` — which `read_exact`s `size`
bytes up front — fails with `UnexpectedEof`. -/
theorem c5_read_async_differ_counterexample :
    TrackingMessage.read 0
        (leBytes 8 0 ++ leBytes 4 13 ++ TrackingMessage.enc ⟨0, []⟩)
      = .ok (⟨0, []⟩, []) ∧
    TrackingMessage.async_read 0
        (leBytes 8 0 ++ leBytes 4 13 ++ TrackingMessage.enc ⟨0, []⟩)
      = .error .unexpectedEof := by
  constructor
  · decide
  · decide

/-- C5 (amended): both variants read the 8-byte fingerprint (failing with
`InvalidData("message fingerprint mismatch")` on mismatch) and the 4-byte
size; `async_read` then consumes exactly `size` bytes before decoding, while
the blocking `read` decodes from the stream limited to `size` bytes and
consumes only what the decoder needs.  The two are behaviorally identical on
every frame whose size field equals the encoded length of its body — in
particular on every frame produced by `write` — followed by arbitrary
trailing bytes. -/
theorem c5_read_async_agree_on_frames (fp : Nat) (m : TrackingMessage)
    (rest bs : List Nat) (hfp : fp < 2 ^ 64) (hm : m.Valid)
    (hbs : TrackingMessage.write fp m = some bs) :
    TrackingMessage.async_read fp (bs ++ rest)
      = TrackingMessage.read fp (bs ++ rest) ∧
    TrackingMessage.read fp (bs ++ rest) = .ok (m, rest) := by
  have hbs2 := hbs
  simp [TrackingMessage.write] at hbs2
  obtain ⟨hs4, hbseq⟩ := hbs2
  have hpow : (2 : Nat) ^ 32 = 4294967296 := by norm_num
  have hs : m.serialized_size < 2 ^ 32 := by rw [hpow]; exact hs4
  have h := read_frame fp m rest hfp hm hs
  have h1 : TrackingMessage.read fp (bs ++ rest) = .ok (m, rest) := by
    rw [← hbseq]
    simpa [List.append_assoc] using h.1
  have h2 : TrackingMessage.async_read fp (bs ++ rest) = .ok (m, rest) := by
    rw [← hbseq]
    simpa [List.append_assoc] using h.2
  exact ⟨h2.trans h1.symm, h1⟩

/-- C5 witness: agreement of the two read paths on a concrete written frame
with trailing bytes. -/
theorem c5_read_async_agree_on_frames_witness :
    TrackingMessage.async_read 9
        ((TrackingMessage.write 9 sampleMsg).getD [] ++ [7, 7])
      = TrackingMessage.read 9 ((TrackingMessage.write 9 sampleMsg).getD [] ++ [7, 7]) ∧
    TrackingMessage.read 9 ((TrackingMessage.write 9 sampleMsg).getD [] ++ [7, 7])
      = .ok (sampleMsg, [7, 7]) := by
  have h := c5_read_async_agree_on_frames 9 sampleMsg [7, 7]
    ((TrackingMessage.write 9 sampleMsg).getD []) (by norm_num) (by decide)
    (by decide)
  exact h

/-- C10: `write` (and `async_write`, which produces the same bytes under the
same condition) panics via `u32::try_from(size).unwrap()` exactly when the
bincode-serialized size exceeds `u32::MAX`; for every smaller message the
conversion cannot fail, the bincode size equals the body length, and the
4-byte size header written is exactly the body length. -/
theorem c10_write_size_header (fp : Nat) (m : TrackingMessage) :
    (TrackingMessage.write fp m = none ↔ 2 ^ 32 ≤ m.serialized_size) ∧
    m.serialized_size = m.enc.length ∧
    TrackingMessage.async_write fp m = TrackingMessage.write fp m ∧
    (m.serialized_size < 2 ^ 32 →
      TrackingMessage.write fp m
        = some (leBytes 8 fp ++ leBytes 4 m.enc.length ++ m.enc)) := by
  refine ⟨?_, (trackingMessage_enc_length m).symm, rfl, ?_⟩
  · by_cases hc : m.serialized_size < 2 ^ 32
    · simp only [TrackingMessage.write]
      rw [if_pos hc]
      simp
      omega
    · simp only [TrackingMessage.write]
      rw [if_neg hc]
      simp
      omega
  · intro h
    simp only [TrackingMessage.write]
    rw [if_pos h, trackingMessage_enc_length m]

/-- C10 witness: the size header of a concrete written frame. -/
theorem c10_write_size_header_witness :
    (TrackingMessage.write 3 sampleMsg = none ↔ 2 ^ 32 ≤ sampleMsg.serialized_size) ∧
    sampleMsg.serialized_size = sampleMsg.enc.length ∧
    TrackingMessage.async_write 3 sampleMsg = TrackingMessage.write 3 sampleMsg ∧
    (sampleMsg.serialized_size < 2 ^ 32 →
      TrackingMessage.write 3 sampleMsg
        = some (leBytes 8 3 ++ leBytes 4 sampleMsg.enc.length ++ sampleMsg.enc)) :=
  c10_write_size_header 3 sampleMsg

/-! ### Claims C3, C4, C7 -/

/-- C3 counterexample: update the slot once with 42, drop the writer, and let a
cloned reader that has not yet read call `block()`.  The source checks the
`disconnected` flag before looking at the pending value, so the very first
`block()` returns `Err(Disconnected)` — not `Ok(42)` as the claim states. -/
theorem c3_first_block_disconnected_counterexample :
    (SlotReader.block (SlotWriter.dropWriter (SlotWriter.update (slotDataInit Nat) 42))
        (SlotReader.clone slotReaderInit)).1 = BlockResult.disconnected ∧
    (SlotReader.block (SlotWriter.dropWriter (SlotWriter.update (slotDataInit Nat) 42))
        (SlotReader.clone slotReaderInit)).1 ≠ BlockResult.ok 42 := by
  decide

/-- C3 (amended): after one `update(42)` and a writer drop, a cloned reader
that has not yet read gets `Err(Disconnected)` from its first `block()` call
(the disconnect check precedes the value check), and its next `block()` call
returns `Err(Disconnected)` again; the written 42 stays observable through
`next()`. -/
theorem c3_block_after_drop :
    (SlotReader.block (SlotWriter.dropWriter (SlotWriter.update (slotDataInit Nat) 42))
        (SlotReader.clone slotReaderInit)).1 = BlockResult.disconnected ∧
    (SlotReader.block (SlotWriter.dropWriter (SlotWriter.update (slotDataInit Nat) 42))
        (SlotReader.block (SlotWriter.dropWriter (SlotWriter.update (slotDataInit Nat) 42))
          (SlotReader.clone slotReaderInit)).2).1 = BlockResult.disconnected ∧
    (SlotReader.next (SlotWriter.dropWriter (SlotWriter.update (slotDataInit Nat) 42))
        (SlotReader.clone slotReaderInit)).1 = some 42 := by
  decide

/-- C4 counterexample: write 42, let the reader retrieve it with `next()`
(setting its `read_gen` to 1), then clone it.  The clone's `read_gen` is 1 —
copied from the parent, not re-initialized to all-ones — and consequently the
clone's `next()` does not report the first (and only) write as new. -/
theorem c4_clone_read_gen_counterexample :
    (SlotReader.clone
        (SlotReader.next (SlotWriter.update (slotDataInit Nat) 42) slotReaderInit).2).read_gen
      = 1 ∧
    (SlotReader.clone
        (SlotReader.next (SlotWriter.update (slotDataInit Nat) 42) slotReaderInit).2).read_gen
      ≠ u64AllOnes ∧
    (SlotReader.next (SlotWriter.update (slotDataInit Nat) 42)
        (SlotReader.clone
          (SlotReader.next (SlotWriter.update (slotDataInit Nat) 42) slotReaderInit).2)).1
      = none := by
  decide

/-- C4 (amended): `clone()` copies the parent's `read_gen` verbatim, so a clone
behaves exactly like its parent on `next()` and `block()`; only the reader
created by `slot()` itself starts with `read_gen = !0`. -/
theorem c4_clone_copies_read_gen (r : SlotReader) (s : SlotData Nat) :
    (SlotReader.clone r).read_gen = r.read_gen ∧
    slotReaderInit.read_gen = u64AllOnes ∧
    SlotReader.next s (SlotReader.clone r) = SlotReader.next s r ∧
    SlotReader.block s (SlotReader.clone r) = SlotReader.block s r := by
  cases r
  exact ⟨rfl, rfl, rfl, rfl⟩

/-- C7: after `update(v)` with no subsequent update, a reader whose `read_gen`
differs from the new `write_gen` obtains `v` exactly once from `next()` (a
reader that is up to date gets `none`), while `get()` returns `v` no matter
what the reader's `read_gen` is (and the slot state itself is never modified by
reads, so this repeats arbitrarily often); concretely, after updates 1, 2, 3
with no intervening read, `next()` returns 3 once and then `none`. -/
theorem c7_slot_latest_wins (s : SlotData Nat) (v : Nat) (r r2 : SlotReader)
    (h : r.read_gen ≠ (SlotWriter.update s v).write_gen)
    (h2 : r2.read_gen = (SlotWriter.update s v).write_gen) :
    SlotReader.next (SlotWriter.update s v) r
      = (some v, { read_gen := (SlotWriter.update s v).write_gen }) ∧
    SlotReader.next (SlotWriter.update s v) r2 = (none, r2) ∧
    SlotReader.get (SlotWriter.update s v) r2
      = (some v, { read_gen := (SlotWriter.update s v).write_gen }) ∧
    (SlotReader.next
        (SlotWriter.update (SlotWriter.update (SlotWriter.update (slotDataInit Nat) 1) 2) 3)
        slotReaderInit).1 = some 3 ∧
    (SlotReader.next
        (SlotWriter.update (SlotWriter.update (SlotWriter.update (slotDataInit Nat) 1) 2) 3)
        (SlotReader.next
          (SlotWriter.update (SlotWriter.update (SlotWriter.update (slotDataInit Nat) 1) 2) 3)
          slotReaderInit).2).1 = none := by
  refine ⟨?_, ?_, ?_, by decide, by decide⟩
  · simp [SlotReader.next, SlotWriter.update] at h ⊢
    intro hv
    exact absurd hv.symm h
  · simp [SlotReader.next, SlotWriter.update] at h2 ⊢
    exact h2.symm
  · simp [SlotReader.get, SlotWriter.update]

/-! ### Claims C6, C8, C9 -/

/-- C6 counterexample: with the internal reader task exited with an I/O error
(reader disconnected, task handle holding `Err`), the first `get()` joins the
task and returns its error, but the second `get()` panics — the code runs
`self.task.take().unwrap()` on an already-taken (`None`) handle — instead of
returning an error as the claim states. -/
theorem c6_second_call_panics_counterexample :
    (Subscriber.get ⟨some (.error .unexpectedEof), ⟨true, false, some 7⟩⟩).1
      = Outcome.err IoErr.unexpectedEof ∧
    (Subscriber.get
        (Subscriber.get ⟨some (.error .unexpectedEof), ⟨true, false, some 7⟩⟩).2).1
      = Outcome.panicked := by
  decide

/-- C6 (amended): once the internal reader task has exited with an I/O error
(its slot writer dropped, the reader disconnected), the first `get()` or
`block()` call joins the task exactly once (emptying the stored handle) and
returns the task's error; every subsequent call that observes the disconnect
panics on `self.task.take().unwrap()` rather than returning an error, and
`next()` with no unread change returns `Ok(None)` without surfacing the error
at all. -/
theorem c6_join_once_then_panic (e : IoErr) (val : Option Nat) :
    (Subscriber.get ⟨some (.error e), ⟨true, false, val⟩⟩).1 = .err e ∧
    (Subscriber.get ⟨some (.error e), ⟨true, false, val⟩⟩).2.task = none ∧
    (Subscriber.block ⟨some (.error e), ⟨true, false, val⟩⟩).1 = .err e ∧
    (Subscriber.block ⟨some (.error e), ⟨true, false, val⟩⟩).2.task = none ∧
    (Subscriber.next ⟨some (.error e), ⟨true, false, val⟩⟩).1 = .ok none ∧
    (Subscriber.get (Subscriber.get ⟨some (.error e), ⟨true, false, val⟩⟩).2).1
      = .panicked ∧
    (Subscriber.block (Subscriber.block ⟨some (.error e), ⟨true, false, val⟩⟩).2).1
      = .panicked := by
  simp [Subscriber.get, Subscriber.block, Subscriber.next, Subscriber.pingErr,
    Subscriber.takeJoinErr, RReader.get, RReader.blockR, RReader.has_changed,
    RReader.is_disconnected]

/-- C8: dropping a `Task` whose future panicked re-raises the captured panic
payload on the dropping thread when that thread is not already unwinding, and
silently absorbs it when it is; and (for any task state) the drop joins
without cancellation exactly when `is_finished()` holds at drop time,
cancelling and joining otherwise. -/
theorem c8_task_drop_panic_propagation (st st2 : TaskState Nat) (p : String)
    (tp : Bool) (h : st = .panicked p) :
    (Task.dropTask st tp).raised = (if tp then none else some p) ∧
    (Task.dropTask st2 tp).canceled = !Task.is_finished st2 := by
  constructor
  · subst h
    cases tp <;> simp [Task.dropTask, Task.is_finished]
  · cases st2 <;> cases tp <;> simp [Task.dropTask, Task.is_finished]

/-- C8 witness: a panicked task dropped by a non-unwinding thread re-raises
the payload; a still-running task is cancelled. -/
theorem c8_task_drop_panic_propagation_witness :
    (Task.dropTask (TaskState.panicked "boom" : TaskState Nat) false).raised
      = (if false then none else some "boom") ∧
    (Task.dropTask (TaskState.running : TaskState Nat) false).canceled
      = !Task.is_finished (TaskState.running : TaskState Nat) :=
  c8_task_drop_panic_propagation (.panicked "boom") .running "boom" false rfl

/-- `local_addrs` is empty exactly when no enumerated interface carries a
private IPv4 address. -/
theorem localAddrs_eq_nil (ifaces : List IfIp) :
    localAddrs ifaces = [] ↔ ∀ i ∈ ifaces, i.privateV4 = none := by
  induction ifaces with
  | nil => simp [localAddrs]
  | cons i t ih =>
    cases h : i.privateV4 with
    | none => simp [localAddrs, List.filterMap_cons, h, ih]
    | some a => simp [localAddrs, List.filterMap_cons, h]

/-- C9: `Publisher::spawn` fails with `AddrNotAvailable` exactly when the
enumerated interfaces contain no private IPv4 address; with at least one such
interface the construction proceeds to bind the TCP listener. -/
theorem c9_publisher_spawn_addr_not_available (ifaces : List IfIp) :
    (Publisher.spawnStep ifaces = .addrNotAvailable ↔
      ∀ i ∈ ifaces, i.privateV4 = none) ∧
    (localAddrs ifaces ≠ [] →
      ∃ first more, Publisher.spawnStep ifaces = .bindListener first more) := by
  constructor
  · cases h : localAddrs ifaces with
    | nil =>
      simp [Publisher.spawnStep, h]
      exact (localAddrs_eq_nil ifaces).1 h
    | cons a t =>
      simp [Publisher.spawnStep, h]
      by_contra hno
      push_neg at hno
      have := (localAddrs_eq_nil ifaces).2 hno
      rw [h] at this
      cases this
  · intro hne
    cases h : localAddrs ifaces with
    | nil => exact absurd h hne
    | cons a t => exact ⟨a, t, by simp [Publisher.spawnStep, h]⟩

/-- C9 witness: one machine with a loopback-free list holding a `192.168/16`
address proceeds to bind; the private-address check evaluated concretely. -/
theorem c9_publisher_spawn_addr_not_available_witness :
    ∃ first more,
      Publisher.spawnStep [IfIp.v6, IfIp.v4 192 168 0 5]
        = .bindListener first more :=
  (c9_publisher_spawn_addr_not_available [IfIp.v6, IfIp.v4 192 168 0 5]).2
    (by decide)

/-- C7 witness: instantiation at a concrete slot, value 42 and concrete
readers. -/
theorem c7_slot_latest_wins_witness :
    SlotReader.next (SlotWriter.update (slotDataInit Nat) 42) slotReaderInit
      = (some 42, { read_gen := 1 }) ∧
    SlotReader.next (SlotWriter.update (slotDataInit Nat) 42) { read_gen := 1 }
      = (none, { read_gen := 1 }) ∧
    SlotReader.get (SlotWriter.update (slotDataInit Nat) 42) { read_gen := 1 }
      = (some 42, { read_gen := 1 }) ∧
    (SlotReader.next
        (SlotWriter.update (SlotWriter.update (SlotWriter.update (slotDataInit Nat) 1) 2) 3)
        slotReaderInit).1 = some 3 ∧
    (SlotReader.next
        (SlotWriter.update (SlotWriter.update (SlotWriter.update (slotDataInit Nat) 1) 2) 3)
        (SlotReader.next
          (SlotWriter.update (SlotWriter.update (SlotWriter.update (slotDataInit Nat) 1) 2) 3)
          slotReaderInit).2).1 = none := by
  have h := c7_slot_latest_wins (slotDataInit Nat) 42 slotReaderInit { read_gen := 1 }
    (by decide) (by decide)
  simpa using h

end Providence
